import Mathlib

/-!
Verification development for the timekiosk-server repository.

The repository contains several variants of a small CRUD/sync HTTP server:
a PostgreSQL-backed REST server (server.js, the richest variant), an
RxDB-backed REST server, and an RxDB-backed sync (pull/push) server.
This file gives a shallow embedding of the request handlers that the
specification talks about and proves the specified properties about them.

JSON values are modelled by the mutual inductive JsVal below; JavaScript
truthiness, the logical-or default idiom (x || d), and property access on
possibly-non-object values are modelled explicitly.  Database rows are
association lists from column names to values; the SQL statements used by
the handlers (INSERT, INSERT .. ON CONFLICT DO UPDATE, DELETE, SELECT) are
modelled as list operations keyed by the id column, including the NOT NULL
and PRIMARY KEY constraints declared in initDB.
-/

mutual
/-- A JSON value as manipulated by the JavaScript source. -/
inductive JsVal where
  | null : JsVal
  | bool : Bool → JsVal
  | num : Int → JsVal
  | str : String → JsVal
  | arr : JsItems → JsVal
  | obj : JsFields → JsVal
deriving DecidableEq

/-- The element list of a JSON array. -/
inductive JsItems where
  | nil : JsItems
  | cons : JsVal → JsItems → JsItems
deriving DecidableEq

/-- The field list of a JSON object. -/
inductive JsFields where
  | nil : JsFields
  | cons : String → JsVal → JsFields → JsFields
deriving DecidableEq
end

/-- JavaScript truthiness of a JSON value. -/
def truthy : JsVal → Bool
  | .null => false
  | .bool b => b
  | .num n => n != 0
  | .str s => s != ""
  | .arr _ => true
  | .obj _ => true

/-- The JavaScript idiom a || b: a when a is truthy, otherwise b. -/
def jsOr (a b : JsVal) : JsVal := if truthy a then a else b

/-- A record (a database row, or a parsed JSON request body) as an
association list from field names to values. -/
abbrev Obj := List (String × JsVal)

/-- Property access data.k on a record; an absent property reads as
undefined, which the pg driver and the handlers treat like null. -/
def objGet (o : Obj) (k : String) : JsVal := (o.lookup k).getD JsVal.null

/-- Package an association list as a JSON object value. -/
def fieldsOf : Obj → JsFields
  | [] => .nil
  | (k, v) :: rest => .cons k v (fieldsOf rest)

/-- Package a list of values as a JSON array value. -/
def itemsOf : List JsVal → JsItems
  | [] => .nil
  | v :: rest => .cons v (itemsOf rest)

/-- Unpack a JSON object field list into an association list. -/
def listOfFields : JsFields → Obj
  | .nil => []
  | .cons k v rest => (k, v) :: listOfFields rest

/-- Field lookup inside a JSON object value. -/
def fieldsGet : JsFields → String → JsVal
  | .nil, _ => .null
  | .cons k v rest, key => if k = key then v else fieldsGet rest key

/-- Property access v.k on an arbitrary JSON value: on a non-object,
non-null value it yields undefined (modelled as null). -/
def jsGet : JsVal → String → JsVal
  | .obj fs, k => fieldsGet fs k
  | _, _ => .null

/-! ## Authentication middleware

From server.js authMiddleware: the token is element 1 of the header split
on spaces, guarded by the falsiness of authHeader, compared against the
configured shared secret (SERVER_SECRET, or SYNC_TOKEN in the other
variants). -/

/-- The splitting of a character list on the space character, exactly as
the JavaScript string split on a single space does (empty segments kept). -/
def splitChars : List Char → List (List Char)
  | [] => [[]]
  | c :: rest =>
    if c = ' ' then [] :: splitChars rest
    else
      match splitChars rest with
      | [] => [[c]]
      | w :: ws => (c :: w) :: ws

/-- Element 1 of an array, as the JavaScript indexing arr[1] yields it
(undefined when out of range). -/
def second : List String → Option String
  | _ :: x :: _ => some x
  | _ => none

/-- The token extracted by authMiddleware: authHeader short-circuited with
element 1 of the header split on spaces.
A missing header yields undefined (none); an empty header is falsy and
short-circuits to the empty string; otherwise the part of the header
between the first and second space. -/
def tokenOf (authHeader : Option String) : Option String :=
  match authHeader with
  | none => none
  | some h =>
    if h = "" then some ""
    else second ((splitChars h.data).map (fun w => String.mk w))

/-- Falsiness of the extracted token (undefined or the empty string),
the condition of the 401 branch. -/
def tokenFalsy (o : Option String) : Prop := o = none ∨ o = some ""

instance (o : Option String) : Decidable (tokenFalsy o) := by
  unfold tokenFalsy; infer_instance

/-- Truthiness of the configured secret: the environment variable is set
and non-empty. -/
def secretTruthy (o : Option String) : Prop := o ≠ none ∧ o ≠ some ""

instance (o : Option String) : Decidable (secretTruthy o) := by
  unfold secretTruthy; infer_instance

/-- The three possible outcomes of the authentication middleware. -/
inductive AuthDecision where
  | unauthorized : AuthDecision
  | forbidden : AuthDecision
  | allow : AuthDecision
deriving DecidableEq

/-- The authMiddleware of server.js: 401 when the token is falsy, 403 when
a secret is configured and the token differs from it, otherwise next(). -/
def authMiddleware (secret authHeader : Option String) : AuthDecision :=
  if tokenFalsy (tokenOf authHeader) then .unauthorized
  else if secretTruthy secret ∧ tokenOf authHeader ≠ secret then .forbidden
  else .allow

/-- An HTTP response: a status code and a JSON body. -/
structure Response where
  status : Nat
  body : JsVal
deriving DecidableEq

def respUnauthorized : Response :=
  ⟨401, .obj (fieldsOf [("error", .str "Unauthorized: No token provided")])⟩

def respForbidden : Response :=
  ⟨403, .obj (fieldsOf [("error", .str "Forbidden: Invalid token")])⟩

def respCollNotFound : Response :=
  ⟨404, .obj (fieldsOf [("error", .str "Collection not found")])⟩

def respDocNotFound : Response :=
  ⟨404, .obj (fieldsOf [("error", .str "Document not found")])⟩

def respOkTrue : Response :=
  ⟨200, .obj (fieldsOf [("ok", .bool true)])⟩

def sqlNotNullError : Response :=
  ⟨500, .obj (fieldsOf [("error", .str "null value violates not-null constraint")])⟩

def sqlDuplicateError : Response :=
  ⟨500, .obj (fieldsOf [("error", .str "duplicate key value violates unique constraint")])⟩

/-- A data route guarded by authMiddleware: the middleware either responds
401 or 403 itself, never invoking the handler, or passes control through. -/
def routeWithAuth {σ : Type} (secret authHeader : Option String)
    (handler : σ → σ × Response) (st : σ) : σ × Response :=
  match authMiddleware secret authHeader with
  | .unauthorized => (st, respUnauthorized)
  | .forbidden => (st, respForbidden)
  | .allow => handler st

/-! ## The PostgreSQL variant (server.js): collections, tables, handlers -/

/-- The five collections served by the REST routes. -/
inductive Coll where
  | employees : Coll
  | timerecords : Coll
  | locations : Coll
  | departments : Coll
  | settings : Coll
deriving DecidableEq

/-- The validCollections list of server.js. -/
def validCollections : List String :=
  ["employees", "timerecords", "locations", "departments", "settings"]

/-- Dispatch of the collection path parameter: the includes check on
validCollections combined with the per-collection branches of the
handlers (the two sets of names coincide in the source). -/
def collOfString (s : String) : Option Coll :=
  if s = "employees" then some .employees
  else if s = "timerecords" then some .timerecords
  else if s = "locations" then some .locations
  else if s = "departments" then some .departments
  else if s = "settings" then some .settings
  else none

/-- The five PostgreSQL tables created by initDB. -/
structure DBState where
  employees : List Obj
  timerecords : List Obj
  locations : List Obj
  departments : List Obj
  settings : List Obj
deriving DecidableEq

def DBState.get (st : DBState) : Coll → List Obj
  | .employees => st.employees
  | .timerecords => st.timerecords
  | .locations => st.locations
  | .departments => st.departments
  | .settings => st.settings

def DBState.set (st : DBState) : Coll → List Obj → DBState
  | .employees, t => { st with employees := t }
  | .timerecords, t => { st with timerecords := t }
  | .locations, t => { st with locations := t }
  | .departments, t => { st with departments := t }
  | .settings, t => { st with settings := t }

/-- The id column of a row, the key of every table (PRIMARY KEY). -/
def rowKey (r : Obj) : JsVal := objGet r "id"

/-- The row written by the INSERT statements of the POST and PUT handlers
of server.js: the values array, one entry per data column, with the
JavaScript || false and || [] defaults exactly as in the source.  The id
parameter is passed separately because POST uses data.id while PUT uses
data.id || id. -/
def storageRow (c : Coll) (rid : JsVal) (data : Obj) : Obj :=
  match c with
  | .employees =>
    [("id", rid), ("name", objGet data "name"), ("pin", objGet data "pin"),
     ("image_url", objGet data "imageUrl"),
     ("archived", jsOr (objGet data "archived") (.bool false)),
     ("auto_deduct_lunch", jsOr (objGet data "autoDeductLunch") (.bool false)),
     ("location_id", objGet data "locationId"),
     ("department_id", objGet data "departmentId"),
     ("is_temp", jsOr (objGet data "isTemp") (.bool false)),
     ("temp_agency", objGet data "tempAgency")]
  | .timerecords =>
    [("id", rid), ("employee_id", objGet data "employeeId"),
     ("location_id", objGet data "locationId"),
     ("clock_in", objGet data "clockIn"), ("clock_out", objGet data "clockOut"),
     ("breaks", jsOr (objGet data "breaks") (.arr .nil))]
  | .locations =>
    [("id", rid), ("name", objGet data "name"),
     ("abbreviation", objGet data "abbreviation")]
  | .departments =>
    [("id", rid), ("name", objGet data "name")]
  | .settings =>
    [("id", rid), ("logo_url", objGet data "logoUrl"),
     ("week_start_day", objGet data "weekStartDay"),
     ("remote_db_url", objGet data "remoteDbUrl"),
     ("enable_screen_saver", objGet data "enableScreenSaver"),
     ("kiosk_location_id", objGet data "kioskLocationId"),
     ("clock_format", objGet data "clockFormat"),
     ("allow_employee_photo_upload", objGet data "allowEmployeePhotoUpload"),
     ("timeout_status", objGet data "timeoutStatus"),
     ("timeout_timecard", objGet data "timeoutTimecard"),
     ("timeout_confirmation", objGet data "timeoutConfirmation"),
     ("timeout_admin_dashboard", objGet data "timeoutAdminDashboard"),
     ("timeout_admin_login", objGet data "timeoutAdminLogin")]

/-- The NOT NULL columns declared in initDB for each table (the PRIMARY
KEY id column is NOT NULL implicitly). -/
def notNullCols : Coll → List String
  | .employees => ["id", "name", "pin"]
  | .timerecords => ["id", "employee_id", "clock_in"]
  | .locations => ["id", "name"]
  | .departments => ["id", "name"]
  | .settings => ["id"]

/-- Whether a row satisfies the NOT NULL constraints of its table; a
violation makes the INSERT raise, which the handler surfaces as a 500. -/
def rowNotNullOk (c : Coll) (row : Obj) : Bool :=
  (notNullCols c).all (fun col => objGet row col != JsVal.null)

/-- The dbToApi helper of server.js: snake_case row to camelCase wire
record, with the row.breaks || [] default for time records and the
identity fallback for unknown collection names. -/
def dbToApi (row : Obj) (collection : String) : JsVal :=
  if collection = "employees" then
    .obj (fieldsOf
      [("id", objGet row "id"), ("name", objGet row "name"),
       ("pin", objGet row "pin"), ("imageUrl", objGet row "image_url"),
       ("archived", objGet row "archived"),
       ("autoDeductLunch", objGet row "auto_deduct_lunch"),
       ("locationId", objGet row "location_id"),
       ("departmentId", objGet row "department_id"),
       ("isTemp", objGet row "is_temp"),
       ("tempAgency", objGet row "temp_agency")])
  else if collection = "timerecords" then
    .obj (fieldsOf
      [("id", objGet row "id"), ("employeeId", objGet row "employee_id"),
       ("locationId", objGet row "location_id"),
       ("clockIn", objGet row "clock_in"), ("clockOut", objGet row "clock_out"),
       ("breaks", jsOr (objGet row "breaks") (.arr .nil))])
  else if collection = "locations" then
    .obj (fieldsOf
      [("id", objGet row "id"), ("name", objGet row "name"),
       ("abbreviation", objGet row "abbreviation")])
  else if collection = "departments" then
    .obj (fieldsOf [("id", objGet row "id"), ("name", objGet row "name")])
  else if collection = "settings" then
    .obj (fieldsOf
      [("id", objGet row "id"), ("logoUrl", objGet row "logo_url"),
       ("weekStartDay", objGet row "week_start_day"),
       ("remoteDbUrl", objGet row "remote_db_url"),
       ("enableScreenSaver", objGet row "enable_screen_saver"),
       ("kioskLocationId", objGet row "kiosk_location_id"),
       ("clockFormat", objGet row "clock_format"),
       ("allowEmployeePhotoUpload", objGet row "allow_employee_photo_upload"),
       ("timeoutStatus", objGet row "timeout_status"),
       ("timeoutTimecard", objGet row "timeout_timecard"),
       ("timeoutConfirmation", objGet row "timeout_confirmation"),
       ("timeoutAdminDashboard", objGet row "timeout_admin_dashboard"),
       ("timeoutAdminLogin", objGet row "timeout_admin_login")])
  else .obj (fieldsOf row)

/-- The INSERT .. ON CONFLICT (id) DO UPDATE SET .. of the PUT handlers:
when a row with the same id exists it is replaced (every data column is
set to the excluded value), otherwise the row is appended. -/
def upsertTable (t : List Obj) (row : Obj) : List Obj :=
  if t.any (fun r => rowKey r == rowKey row) then
    t.map (fun r => if rowKey r == rowKey row then row else r)
  else t ++ [row]

/-- The GET /:collection handler of server.js. -/
def handleGetAll (st : DBState) (collStr : String) : Response :=
  match collOfString collStr with
  | none => respCollNotFound
  | some c => ⟨200, .arr (itemsOf ((st.get c).map (fun row => dbToApi row collStr)))⟩

/-- The GET /:collection/:id handler of server.js. -/
def handleGetOne (st : DBState) (collStr pathId : String) : Response :=
  match collOfString collStr with
  | none => respCollNotFound
  | some c =>
    match (st.get c).find? (fun r => rowKey r == JsVal.str pathId) with
    | none => respDocNotFound
    | some row => ⟨200, dbToApi row collStr⟩

/-- The POST /:collection handler of server.js: a plain INSERT, which the
PRIMARY KEY constraint makes fail on a duplicate id (surfaced as 500). -/
def handlePost (st : DBState) (collStr : String) (data : Obj) : DBState × Response :=
  match collOfString collStr with
  | none => (st, respCollNotFound)
  | some c =>
    let row := storageRow c (objGet data "id") data
    if rowNotNullOk c row then
      if (st.get c).any (fun r => rowKey r == rowKey row) then (st, sqlDuplicateError)
      else (st.set c (st.get c ++ [row]), ⟨201, dbToApi row collStr⟩)
    else (st, sqlNotNullError)

/-- The PUT /:collection/:id handler of server.js: an upsert keyed by
data.id || id. -/
def handlePut (st : DBState) (collStr pathId : String) (data : Obj) : DBState × Response :=
  match collOfString collStr with
  | none => (st, respCollNotFound)
  | some c =>
    let row := storageRow c (jsOr (objGet data "id") (.str pathId)) data
    if rowNotNullOk c row then
      (st.set c (upsertTable (st.get c) row), ⟨200, dbToApi row collStr⟩)
    else (st, sqlNotNullError)

/-- The DELETE /:collection/:id handler of server.js: DELETE .. WHERE
id = $1 RETURNING *, a 404 when no row was deleted. -/
def handleDelete (st : DBState) (collStr pathId : String) : DBState × Response :=
  match collOfString collStr with
  | none => (st, respCollNotFound)
  | some c =>
    if (st.get c).any (fun r => rowKey r == JsVal.str pathId) then
      (st.set c ((st.get c).filter (fun r => !(rowKey r == JsVal.str pathId))), respOkTrue)
    else (st, respDocNotFound)

/-! ## The sync variant: pull and push endpoints

The sync endpoints live in the RxDB-backed variant whose addCollections
call registers employees, time_records, locations, departments and
settings (note the underscore in time_records).

The handlers guard with the falsiness of db[collection], where db is the
RxDatabase object.  That object carries its registered collections as
properties, but also its own truthy members (the source itself reads
db.addCollections, and createRxDatabase is given the database name that
the object exposes as db.name).  A request naming such a member passes
the guard and the subsequent collection call throws, which the catch
block surfaces as a 500.  The embedding therefore distinguishes three
outcomes of the property access: a registered collection, some other
truthy member, or an absent (undefined, falsy) property.  The set of
truthy non-collection member names belongs to the external library, so
the database structures carry it as an abstract members field. -/

/-- The outcome of the db[collection] property access on an RxDatabase
object. -/
inductive RxProp where
  | coll : List Obj → RxProp
  | member : RxProp
  | absent : RxProp
deriving DecidableEq

/-- Truthy non-collection members of the RxDatabase object that the
source itself exercises: the database name passed to createRxDatabase
and the addCollections method the variants call.  The full member set is
the external library surface; concrete databases in witnesses use this
evidenced subset. -/
def rxDatabaseMembers : List String := ["name", "addCollections"]

/-- The response produced when a request names a truthy non-collection
member of the database object: the guard passes, the collection call on
the member throws a TypeError, and the catch block answers 500 with the
error message. -/
def rxTypeError500 : Response :=
  ⟨500, .obj (fieldsOf [("error", .str "TypeError: not a collection")])⟩

/-- The collections registered by the sync variant, together with the
truthy non-collection member names of the underlying RxDatabase
object. -/
structure SyncDB where
  employees : List Obj
  time_records : List Obj
  locations : List Obj
  departments : List Obj
  settings : List Obj
  members : List String
deriving DecidableEq

/-- The db[collection] property access of the sync handlers: a registered
collection, a truthy non-collection member, or undefined. -/
def rxDbGet (db : SyncDB) (s : String) : RxProp :=
  if s = "employees" then .coll db.employees
  else if s = "time_records" then .coll db.time_records
  else if s = "locations" then .coll db.locations
  else if s = "departments" then .coll db.departments
  else if s = "settings" then .coll db.settings
  else if s ∈ db.members then .member
  else .absent

/-- The registered collection named s, when there is one. -/
def syncTableGet (db : SyncDB) (s : String) : Option (List Obj) :=
  match rxDbGet db s with
  | .coll t => some t
  | _ => none

def syncTableSet (db : SyncDB) (s : String) (t : List Obj) : SyncDB :=
  if s = "employees" then { db with employees := t }
  else if s = "time_records" then { db with time_records := t }
  else if s = "locations" then { db with locations := t }
  else if s = "departments" then { db with departments := t }
  else if s = "settings" then { db with settings := t }
  else db

/-- The POST /sync/:collection/pull handler: an undefined db[collection]
is a 404; a truthy non-collection member passes the guard and the find
call on it throws, a 500; on a registered collection an unselective find
returns every document, and the new checkpoint is built from the last
returned document and the current wall-clock time (the now parameter),
falling back to the client checkpoint when the collection is empty. -/
def handlePull (db : SyncDB) (collStr : String) (checkpoint : JsVal) (now : Int) : Response :=
  match rxDbGet db collStr with
  | .absent => respCollNotFound
  | .member => rxTypeError500
  | .coll t =>
    let docs := t.map (fun r => JsVal.obj (fieldsOf r))
    let newCheckpoint : JsVal :=
      match t.getLast? with
      | some lastDoc => .obj (fieldsOf [("id", objGet lastDoc "id"), ("updatedAt", .num now)])
      | none => checkpoint
    ⟨200, .obj (fieldsOf [("documents", .arr (itemsOf docs)), ("checkpoint", newCheckpoint)])⟩

/-- One element of the push body: c.newDocumentState || c. -/
def pushDocOf (c : JsVal) : JsVal := jsOr (jsGet c "newDocumentState") c

/-- The changes.map(c => c.newDocumentState || c) step of the push
handler; property access on a null element throws, which the handler
surfaces as a 500 before any upsert is applied. -/
def mapPushDocs : List JsVal → Option (List JsVal)
  | [] => some []
  | c :: rest =>
    match c with
    | .null => none
    | _ =>
      match mapPushDocs rest with
      | some ds => some (pushDocOf c :: ds)
      | none => none

/-- One db[collection].upsert(doc) call: the document must be an object
with a string primary key, and replaces any document with the same id. -/
def rxUpsertDoc (t : List Obj) (d : JsVal) : Option (List Obj) :=
  match d with
  | .obj fs =>
    match fieldsGet fs "id" with
    | .str _ => some (upsertTable t (listOfFields fs))
    | _ => none
  | _ => none

/-- The sequential upsert loop of the push handler; a failing upsert stops
the loop with the earlier upserts already applied. -/
def pushApply (t : List Obj) : List JsVal → List Obj × Bool
  | [] => (t, true)
  | d :: ds =>
    match rxUpsertDoc t d with
    | some t2 => pushApply t2 ds
    | none => (t, false)

/-- The POST /sync/:collection/push handler.  An undefined db[collection]
is a 404.  On a truthy non-collection member the guard passes and the
mapping of the changes runs first (a null element throws there); with an
empty document list the upsert loop never runs and the handler answers
200 ok, otherwise the first upsert call on the member throws, a 500. -/
def handlePush (db : SyncDB) (collStr : String) (changes : List JsVal) : SyncDB × Response :=
  match rxDbGet db collStr with
  | .absent => (db, respCollNotFound)
  | .member =>
    match mapPushDocs changes with
    | none => (db, ⟨500, .obj (fieldsOf [("error", .str "Cannot read properties of null")])⟩)
    | some [] => (db, respOkTrue)
    | some (_ :: _) => (db, rxTypeError500)
  | .coll t =>
    match mapPushDocs changes with
    | none => (db, ⟨500, .obj (fieldsOf [("error", .str "Cannot read properties of null")])⟩)
    | some ds =>
      match pushApply t ds with
      | (t2, true) => (syncTableSet db collStr t2, respOkTrue)
      | (t2, false) => (syncTableSet db collStr t2,
          ⟨500, .obj (fieldsOf [("error", .str "upsert failed")])⟩)

/-! ## The RxDB REST variant

The second half of server.js serves the same five REST routes from an
RxDB memory database whose addCollections call registers employees,
timerecords (corrected name, no underscore), locations, departments and
settings.  Its guard is again the falsiness of db[collection], with the
same truthy-member leak as the sync variant. -/

/-- The collections registered by the RxDB REST variant, together with
the truthy non-collection member names of its RxDatabase object. -/
structure RxRestDB where
  employees : List Obj
  timerecords : List Obj
  locations : List Obj
  departments : List Obj
  settings : List Obj
  members : List String
deriving DecidableEq

/-- The db[collection] property access of the RxDB REST handlers. -/
def rxRestGet (db : RxRestDB) (s : String) : RxProp :=
  if s = "employees" then .coll db.employees
  else if s = "timerecords" then .coll db.timerecords
  else if s = "locations" then .coll db.locations
  else if s = "departments" then .coll db.departments
  else if s = "settings" then .coll db.settings
  else if s ∈ db.members then .member
  else .absent

def rxRestSet (db : RxRestDB) (s : String) (t : List Obj) : RxRestDB :=
  if s = "employees" then { db with employees := t }
  else if s = "timerecords" then { db with timerecords := t }
  else if s = "locations" then { db with locations := t }
  else if s = "departments" then { db with departments := t }
  else if s = "settings" then { db with settings := t }
  else db

/-- The insert conflict error of the RxDB REST POST handler, surfaced as
a 500. -/
def rxConflictError500 : Response :=
  ⟨500, .obj (fieldsOf [("error", .str "conflicting document state already in store")])⟩

/-- The error raised when the inserted or upserted document has no string
primary key, surfaced as a 500. -/
def rxMissingIdError500 : Response :=
  ⟨500, .obj (fieldsOf [("error", .str "primary key missing")])⟩

/-- The GET /:collection handler of the RxDB REST variant: find with no
selector, every document serialized. -/
def rxHandleGetAll (db : RxRestDB) (collStr : String) : Response :=
  match rxRestGet db collStr with
  | .absent => respCollNotFound
  | .member => rxTypeError500
  | .coll t => ⟨200, .arr (itemsOf (t.map (fun r => JsVal.obj (fieldsOf r))))⟩

/-- The GET /:collection/:id handler of the RxDB REST variant: findOne by
primary key, a 404 Document not found when null. -/
def rxHandleGetOne (db : RxRestDB) (collStr pathId : String) : Response :=
  match rxRestGet db collStr with
  | .absent => respCollNotFound
  | .member => rxTypeError500
  | .coll t =>
    match t.find? (fun r => rowKey r == JsVal.str pathId) with
    | none => respDocNotFound
    | some r => ⟨200, .obj (fieldsOf r)⟩

/-- The POST /:collection handler of the RxDB REST variant: an insert of
the request body, which needs a string primary key and fails on a
conflicting id, both surfaced as 500. -/
def rxHandlePost (db : RxRestDB) (collStr : String) (body : JsVal) : RxRestDB × Response :=
  match rxRestGet db collStr with
  | .absent => (db, respCollNotFound)
  | .member => (db, rxTypeError500)
  | .coll t =>
    match body with
    | .obj fs =>
      match fieldsGet fs "id" with
      | .str _ =>
        if t.any (fun r => rowKey r == rowKey (listOfFields fs)) then (db, rxConflictError500)
        else (rxRestSet db collStr (t ++ [listOfFields fs]), ⟨201, body⟩)
      | _ => (db, rxMissingIdError500)
    | _ => (db, rxMissingIdError500)

/-- The PUT /:collection/:id handler of the RxDB REST variant: an upsert
of the request body keyed by the body primary key; the path id is never
read. -/
def rxHandlePut (db : RxRestDB) (collStr _pathId : String) (body : JsVal) : RxRestDB × Response :=
  match rxRestGet db collStr with
  | .absent => (db, respCollNotFound)
  | .member => (db, rxTypeError500)
  | .coll t =>
    match rxUpsertDoc t body with
    | some t2 => (rxRestSet db collStr t2, ⟨200, body⟩)
    | none => (db, rxMissingIdError500)

/-- The DELETE /:collection/:id handler of the RxDB REST variant: findOne
then remove, or a 404 Document not found. -/
def rxHandleDelete (db : RxRestDB) (collStr pathId : String) : RxRestDB × Response :=
  match rxRestGet db collStr with
  | .absent => (db, respCollNotFound)
  | .member => (db, rxTypeError500)
  | .coll t =>
    match t.find? (fun r => rowKey r == JsVal.str pathId) with
    | some _ =>
      (rxRestSet db collStr (t.filter (fun r => !(rowKey r == JsVal.str pathId))), respOkTrue)
    | none => (db, respDocNotFound)

/-! ## Wire-record constructors and operation sequences -/

/-- A nullable string field value on the wire. -/
def optStr : Option String → JsVal
  | none => .null
  | some s => .str s

/-- A nullable numeric field value on the wire. -/
def optNum : Option Int → JsVal
  | none => .null
  | some n => .num n

/-- A field-complete employee wire record, fields as declared by the
employee schema and in the order dbToApi produces them. -/
def employeeWire (i n p : String) (img : Option String) (a ad : Bool)
    (loc dep : Option String) (it : Bool) (ta : Option String) : Obj :=
  [("id", .str i), ("name", .str n), ("pin", .str p), ("imageUrl", optStr img),
   ("archived", .bool a), ("autoDeductLunch", .bool ad), ("locationId", optStr loc),
   ("departmentId", optStr dep), ("isTemp", .bool it), ("tempAgency", optStr ta)]

/-- A field-complete time-record wire record. -/
def timerecordWire (i emp : String) (loc : Option String) (cin : String)
    (cout : Option String) (brs : JsItems) : Obj :=
  [("id", .str i), ("employeeId", .str emp), ("locationId", optStr loc),
   ("clockIn", .str cin), ("clockOut", optStr cout), ("breaks", .arr brs)]

/-- A field-complete location wire record. -/
def locationWire (i n : String) (ab : Option String) : Obj :=
  [("id", .str i), ("name", .str n), ("abbreviation", optStr ab)]

/-- A field-complete department wire record. -/
def departmentWire (i n : String) : Obj :=
  [("id", .str i), ("name", .str n)]

/-- A field-complete settings wire record (the richer variant with the
kiosk-behavior fields). -/
def settingsWire (i : String) (logo : Option String) (wsd : Option Int)
    (rdb : Option String) (ess : Bool) (kloc : Option String) (cf : Option String)
    (apu : Bool) (ts ttc tcf tad tal : Option Int) : Obj :=
  [("id", .str i), ("logoUrl", optStr logo), ("weekStartDay", optNum wsd),
   ("remoteDbUrl", optStr rdb), ("enableScreenSaver", .bool ess),
   ("kioskLocationId", optStr kloc), ("clockFormat", optStr cf),
   ("allowEmployeePhotoUpload", .bool apu), ("timeoutStatus", optNum ts),
   ("timeoutTimecard", optNum ttc), ("timeoutConfirmation", optNum tcf),
   ("timeoutAdminDashboard", optNum tad), ("timeoutAdminLogin", optNum tal)]

/-- A mutating operation against the REST store. -/
inductive StoreOp where
  | create : String → Obj → StoreOp
  | upsert : String → String → Obj → StoreOp
  | remove : String → String → StoreOp

/-- The state transition of one operation (the response is discarded). -/
def applyOp (st : DBState) : StoreOp → DBState
  | .create c d => (handlePost st c d).1
  | .upsert c p d => (handlePut st c p d).1
  | .remove c p => (handleDelete st c p).1

/-- The state after a sequence of mutating operations. -/
def applyOps (st : DBState) (ops : List StoreOp) : DBState := ops.foldl applyOp st

/-- A table holds at most one row per id. -/
def tableUnique (t : List Obj) : Prop := (t.map rowKey).Nodup

/-- Every collection of the store holds at most one row per id. -/
def stateUnique (st : DBState) : Prop :=
  tableUnique st.employees ∧ tableUnique st.timerecords ∧ tableUnique st.locations ∧
    tableUnique st.departments ∧ tableUnique st.settings

instance (t : List Obj) : Decidable (tableUnique t) := by
  unfold tableUnique; infer_instance

instance (st : DBState) : Decidable (stateUnique st) := by
  unfold stateUnique; infer_instance

/-- The empty store, the state before any seeding. -/
def emptyState : DBState := ⟨[], [], [], [], []⟩

/-- The empty sync database. -/
def emptySyncDB : SyncDB := ⟨[], [], [], [], [], rxDatabaseMembers⟩

/-- An RxDB REST database with empty collections and the evidenced
RxDatabase members. -/
def emptyRxRestDB : RxRestDB := ⟨[], [], [], [], [], rxDatabaseMembers⟩

/-! ## Basic lemmas about the embedding -/

theorem rowKey_storageRow (c : Coll) (rid : JsVal) (data : Obj) :
    rowKey (storageRow c rid data) = rid := by
  cases c <;> rfl

theorem get_set_same (st : DBState) (c : Coll) (t : List Obj) :
    (st.set c t).get c = t := by
  cases st; cases c <;> rfl

theorem set_set_same (st : DBState) (c : Coll) (t1 t2 : List Obj) :
    (st.set c t1).set c t2 = st.set c t2 := by
  cases st; cases c <;> rfl

theorem mkString_eq_empty_iff (l : List Char) : String.mk l = "" ↔ l = [] := by
  constructor
  · intro h
    exact congrArg String.data h
  · rintro rfl
    rfl

theorem jsOr_of_truthy (a b : JsVal) (h : truthy a = true) : jsOr a b = a := by
  simp [jsOr, h]

theorem jsOr_str (s : String) (b : JsVal) (h : s ≠ "") : jsOr (.str s) b = .str s := by
  apply jsOr_of_truthy
  simpa [truthy] using h

/-! ## Lemmas about the split used by the auth middleware -/

theorem splitChars_no_space (l : List Char) (h : ' ' ∉ l) : splitChars l = [l] := by
  induction l with
  | nil => rfl
  | cons c rest ih =>
    have hc : ¬(c = ' ') := fun hec => h (hec ▸ List.mem_cons_self c rest)
    have hr : ' ' ∉ rest := fun hmr => h (List.mem_cons_of_mem c hmr)
    simp only [splitChars, if_neg hc, ih hr]

theorem splitChars_cons_ne (c : Char) (l : List Char) (hc : ¬(c = ' ')) :
    splitChars (c :: l) =
      match splitChars l with
      | [] => [[c]]
      | w :: ws => (c :: w) :: ws := by
  simp only [splitChars, if_neg hc]

theorem splitChars_append_space (a b : List Char) (ha : ' ' ∉ a) :
    splitChars (a ++ ' ' :: b) = a :: splitChars b := by
  induction a with
  | nil => simp [splitChars]
  | cons c rest ih =>
    have hc : ¬(c = ' ') := fun hec => ha (hec ▸ List.mem_cons_self c rest)
    have hr : ' ' ∉ rest := fun hmr => ha (List.mem_cons_of_mem c hmr)
    rw [List.cons_append, splitChars_cons_ne c _ hc, ih hr]

theorem tokenOf_scheme_token (scheme tok : List Char)
    (hs : ' ' ∉ scheme) (ht : ' ' ∉ tok) :
    tokenOf (some (String.mk (scheme ++ ' ' :: tok))) = some (String.mk tok) := by
  have hne : ¬(String.mk (scheme ++ ' ' :: tok) = "") := by
    rw [mkString_eq_empty_iff]
    simp
  simp only [tokenOf, if_neg hne]
  rw [splitChars_append_space scheme tok hs, splitChars_no_space tok ht]
  rfl

theorem tokenOf_no_space (h : String) (hsp : ' ' ∉ h.data) (hne : h ≠ "") :
    tokenOf (some h) = none := by
  simp only [tokenOf, if_neg hne]
  rw [splitChars_no_space h.data hsp]
  rfl

/-! ## The auth-gate claims -/

/-- Claim C1: on every request to a route guarded by the auth middleware,
a falsy extracted token yields a 401 response with the handler never
running; a configured (set and non-empty) secret together with a
different non-empty token yields a 403 with the handler never running;
and a token equal to the configured secret passes control through to the
handler. -/
theorem c1_auth_middleware_gate {σ : Type} (secret authHeader : Option String)
    (handler : σ → σ × Response) (st : σ) :
    (tokenFalsy (tokenOf authHeader) →
      routeWithAuth secret authHeader handler st = (st, respUnauthorized)) ∧
    (∀ s t, secret = some s → s ≠ "" → tokenOf authHeader = some t → t ≠ "" → t ≠ s →
      routeWithAuth secret authHeader handler st = (st, respForbidden)) ∧
    (∀ s, secret = some s → s ≠ "" → tokenOf authHeader = some s →
      routeWithAuth secret authHeader handler st = handler st) := by
  refine ⟨?_, ?_, ?_⟩
  · intro hfalsy
    simp only [routeWithAuth, authMiddleware, if_pos hfalsy]
  · intro s t hs hsne htok htne hts
    subst hs
    have h1 : ¬ tokenFalsy (tokenOf authHeader) := by
      simp [tokenFalsy, htok, htne]
    have h2 : secretTruthy (some s) ∧ tokenOf authHeader ≠ some s := by
      refine ⟨⟨by simp, by simp [hsne]⟩, ?_⟩
      simp [htok, hts]
    simp only [routeWithAuth, authMiddleware, if_neg h1, if_pos h2]
  · intro s hs hsne htok
    subst hs
    have h1 : ¬ tokenFalsy (tokenOf authHeader) := by
      simp [tokenFalsy, htok, hsne]
    have h2 : ¬ (secretTruthy (some s) ∧ tokenOf authHeader ≠ some s) := by
      simp [htok]
    simp only [routeWithAuth, authMiddleware, if_neg h1, if_neg h2]

/-- Witness for C1 at concrete inputs: a missing header is a 401, a wrong
bearer token is a 403, and the correct bearer token reaches the handler. -/
theorem c1_auth_middleware_gate_witness :
    routeWithAuth (some "s3cret") none (fun st => (st, respOkTrue)) emptyState
        = (emptyState, respUnauthorized) ∧
    routeWithAuth (some "s3cret") (some "Bearer wrong") (fun st => (st, respOkTrue)) emptyState
        = (emptyState, respForbidden) ∧
    routeWithAuth (some "s3cret") (some "Bearer s3cret") (fun st => (st, respOkTrue)) emptyState
        = (emptyState, respOkTrue) :=
  ⟨(c1_auth_middleware_gate (some "s3cret") none (fun st => (st, respOkTrue)) emptyState).1
      (by decide),
   (c1_auth_middleware_gate (some "s3cret") (some "Bearer wrong") (fun st => (st, respOkTrue))
      emptyState).2.1 "s3cret" "wrong" rfl (by decide) (by decide) (by decide) (by decide),
   (c1_auth_middleware_gate (some "s3cret") (some "Bearer s3cret") (fun st => (st, respOkTrue))
      emptyState).2.2 "s3cret" rfl (by decide) (by decide)⟩

/-- Claim C3: when no shared secret is configured in the environment, any
request whose extracted bearer token is non-empty passes straight through
to the handler; the middleware never returns 403. -/
theorem c3_open_mode_accepts_any_token {σ : Type} (authHeader : Option String) (t : String)
    (htok : tokenOf authHeader = some t) (htne : t ≠ "")
    (handler : σ → σ × Response) (st : σ) :
    routeWithAuth none authHeader handler st = handler st ∧
    authMiddleware none authHeader = .allow := by
  have h1 : ¬ tokenFalsy (tokenOf authHeader) := by
    simp [tokenFalsy, htok, htne]
  have h2 : ¬ (secretTruthy (none : Option String) ∧ tokenOf authHeader ≠ none) := by
    simp [secretTruthy]
  constructor
  · simp only [routeWithAuth, authMiddleware, if_neg h1, if_neg h2]
  · simp only [authMiddleware, if_neg h1, if_neg h2]

/-- Witness for C3: with no secret configured, an arbitrary bearer token
reaches the handler. -/
theorem c3_open_mode_accepts_any_token_witness :
    routeWithAuth none (some "Bearer anything") (fun st => (st, respOkTrue)) emptyState
        = (emptyState, respOkTrue) ∧
    authMiddleware none (some "Bearer anything") = .allow :=
  c3_open_mode_accepts_any_token (some "Bearer anything") "anything"
    (by decide) (by decide) (fun st => (st, respOkTrue)) emptyState

/-- Claim C10: the middleware never validates the authorization scheme:
for any space-free scheme word, a header made of that scheme, a space and
the configured secret is allowed through; while every header value
containing no space at all extracts no token (undefined for a non-empty
bare token) and is rejected with 401 whatever the secret. -/
theorem c10_no_scheme_validation :
    (∀ (scheme tok : List Char), ' ' ∉ scheme → ' ' ∉ tok → tok ≠ [] →
      authMiddleware (some (String.mk tok)) (some (String.mk (scheme ++ ' ' :: tok)))
        = .allow) ∧
    (∀ (h : String) (secret : Option String), ' ' ∉ h.data →
      authMiddleware secret (some h) = .unauthorized) ∧
    (∀ h : String, ' ' ∉ h.data → h ≠ "" → tokenOf (some h) = none) := by
  refine ⟨?_, ?_, ?_⟩
  · intro scheme tok hs ht htne
    have htok := tokenOf_scheme_token scheme tok hs ht
    have hmkne : String.mk tok ≠ "" := fun hmk => htne ((mkString_eq_empty_iff tok).mp hmk)
    have h1 : ¬ tokenFalsy (tokenOf (some (String.mk (scheme ++ ' ' :: tok)))) := by
      simp [tokenFalsy, htok, hmkne]
    have h2 : ¬ (secretTruthy (some (String.mk tok)) ∧
        tokenOf (some (String.mk (scheme ++ ' ' :: tok))) ≠ some (String.mk tok)) := by
      simp [htok]
    simp only [authMiddleware, if_neg h1, if_neg h2]
  · intro h secret hsp
    by_cases hne : h = ""
    · subst hne
      have : tokenFalsy (tokenOf (some "")) := by simp [tokenOf, tokenFalsy]
      simp only [authMiddleware, if_pos this]
    · have : tokenFalsy (tokenOf (some h)) := by
        simp [tokenFalsy, tokenOf_no_space h hsp hne]
      simp only [authMiddleware, if_pos this]
  · intro h hsp hne
    exact tokenOf_no_space h hsp hne

/-- Witness for C10: the scheme word Token is accepted just like Bearer,
and a bare token without any scheme is rejected with 401. -/
theorem c10_no_scheme_validation_witness :
    authMiddleware (some (String.mk ['s', 'e', 'c']))
        (some (String.mk (['T', 'o', 'k', 'e', 'n'] ++ ' ' :: ['s', 'e', 'c']))) = .allow ∧
    authMiddleware (some "sec") (some "sec") = .unauthorized ∧
    tokenOf (some "sec") = none :=
  ⟨c10_no_scheme_validation.1 ['T', 'o', 'k', 'e', 'n'] ['s', 'e', 'c']
      (by decide) (by decide) (by decide),
   c10_no_scheme_validation.2.1 "sec" (some "sec") (by decide),
   c10_no_scheme_validation.2.2 "sec" (by decide) (by decide)⟩

/-! ## Lemmas about the keyed table operations -/

theorem any_key_upsertTable (t : List Obj) (row : Obj) :
    (upsertTable t row).any (fun r => rowKey r == rowKey row) = true := by
  unfold upsertTable
  by_cases h : t.any (fun r => rowKey r == rowKey row) = true
  · rw [if_pos h]
    rw [List.any_eq_true] at h ⊢
    obtain ⟨r, hr, hpr⟩ := h
    exact ⟨row, List.mem_map.mpr ⟨r, hr, by simp [hpr]⟩, by simp⟩
  · rw [if_neg h]
    rw [List.any_eq_true]
    exact ⟨row, by simp, by simp⟩

theorem map_replace_self (t : List Obj) (row : Obj) :
    (t.map (fun r => if rowKey r == rowKey row then row else r)).map
        (fun r => if rowKey r == rowKey row then row else r)
      = t.map (fun r => if rowKey r == rowKey row then row else r) := by
  rw [List.map_map]
  apply List.map_congr_left
  intro r _
  by_cases hk : (rowKey r == rowKey row) = true
  · simp [Function.comp, hk]
  · simp [Function.comp, hk]

theorem upsertTable_idem (t : List Obj) (row : Obj) :
    upsertTable (upsertTable t row) row = upsertTable t row := by
  rw [upsertTable, if_pos (any_key_upsertTable t row)]
  unfold upsertTable
  by_cases h : t.any (fun r => rowKey r == rowKey row) = true
  · simp only [if_pos h]
    exact map_replace_self t row
  · simp only [if_neg h]
    have h2 : ∀ r ∈ t, ¬((rowKey r == rowKey row) = true) :=
      List.any_eq_false.mp (by simpa using h)
    rw [List.map_append]
    congr 1
    · calc t.map (fun r => if rowKey r == rowKey row then row else r)
          = t.map id := List.map_congr_left (fun r hr => by simp [h2 r hr])
      _ = t := List.map_id t
    · simp

theorem find?_append_right {α : Type} (p : α → Bool) (t l2 : List α)
    (h : ∀ r ∈ t, ¬(p r = true)) :
    (t ++ l2).find? p = l2.find? p := by
  rw [List.find?_append, List.find?_eq_none.mpr h]
  simp

theorem find?_map_replace (t : List Obj) (row : Obj)
    (h : t.any (fun r => rowKey r == rowKey row) = true) :
    (t.map (fun r => if rowKey r == rowKey row then row else r)).find?
      (fun r => rowKey r == rowKey row) = some row := by
  induction t with
  | nil => simp at h
  | cons a t ih =>
    by_cases hk : (rowKey a == rowKey row) = true
    · simp only [List.map_cons, if_pos hk]
      exact List.find?_cons_of_pos _ (by simp)
    · have hhead : (if rowKey a == rowKey row then row else a) = a := if_neg hk
      have hkf : (rowKey a == rowKey row) = false := by simpa using hk
      rw [List.map_cons, hhead, List.find?_cons, hkf]
      exact ih (by simpa [List.any_cons, hk] using h)

theorem find?_upsertTable_self (t : List Obj) (row : Obj) :
    (upsertTable t row).find? (fun r => rowKey r == rowKey row) = some row := by
  unfold upsertTable
  by_cases h : t.any (fun r => rowKey r == rowKey row) = true
  · rw [if_pos h]
    exact find?_map_replace t row h
  · rw [if_neg h]
    have h2 : ∀ r ∈ t, ¬((rowKey r == rowKey row) = true) :=
      List.any_eq_false.mp (by simpa using h)
    rw [find?_append_right _ t [row] h2]
    simp

theorem filter_pointwise_map (t : List Obj) (f : Obj → Obj) (p : Obj → Bool)
    (h1 : ∀ r, p (f r) = p r) (h2 : ∀ r, p r = true → f r = r) :
    (t.map f).filter p = t.filter p := by
  induction t with
  | nil => rfl
  | cons a t ih =>
    simp only [List.map_cons]
    by_cases hp : p a = true
    · rw [List.filter_cons_of_pos (by rw [h1 a]; exact hp),
        List.filter_cons_of_pos hp, h2 a hp, ih]
    · rw [List.filter_cons_of_neg (by rw [h1 a]; exact hp),
        List.filter_cons_of_neg hp, ih]

theorem filter_upsertTable_other (t : List Obj) (row : Obj) (k : JsVal)
    (hk : ¬(rowKey row = k)) :
    (upsertTable t row).filter (fun r => rowKey r == k)
      = t.filter (fun r => rowKey r == k) := by
  unfold upsertTable
  by_cases h : t.any (fun r => rowKey r == rowKey row) = true
  · rw [if_pos h]
    apply filter_pointwise_map
    · intro r
      by_cases hr : (rowKey r == rowKey row) = true
      · rw [if_pos hr]
        have : rowKey r = rowKey row := by simpa using hr
        rw [this]
      · rw [if_neg hr]
    · intro r hpr
      have hrk : rowKey r = k := by simpa using hpr
      have hne : ¬((rowKey r == rowKey row) = true) := by
        simp only [beq_iff_eq, hrk]
        exact fun he => hk he.symm
      rw [if_neg hne]
  · rw [if_neg h, List.filter_append]
    have : ¬((rowKey row == k) = true) := by simpa using hk
    simp [this]

/-! ## Handler-level equations for the PUT route -/

theorem handlePut_eq_upsert (st : DBState) (c : Coll) (collStr pathId : String) (data : Obj)
    (hc : collOfString collStr = some c)
    (hnn : rowNotNullOk c (storageRow c (jsOr (objGet data "id") (.str pathId)) data) = true) :
    handlePut st collStr pathId data
      = (st.set c (upsertTable (st.get c)
            (storageRow c (jsOr (objGet data "id") (.str pathId)) data)),
         ⟨200, dbToApi (storageRow c (jsOr (objGet data "id") (.str pathId)) data) collStr⟩) := by
  simp only [handlePut, hc, if_pos hnn]

theorem handlePut_eq_err (st : DBState) (c : Coll) (collStr pathId : String) (data : Obj)
    (hc : collOfString collStr = some c)
    (hnn : ¬ rowNotNullOk c (storageRow c (jsOr (objGet data "id") (.str pathId)) data) = true) :
    handlePut st collStr pathId data = (st, sqlNotNullError) := by
  simp only [handlePut, hc, if_neg hnn]

/-- Claim C4: the upsert route is idempotent: performing the same PUT
twice in succession, with the same collection, path id and body, produces
the same final store (and the same response) as performing it once. -/
theorem c4_upsert_idempotent (st : DBState) (collStr pathId : String) (data : Obj) :
    handlePut (handlePut st collStr pathId data).1 collStr pathId data
      = handlePut st collStr pathId data := by
  cases hc : collOfString collStr with
  | none => simp [handlePut, hc]
  | some c =>
    by_cases hnn : rowNotNullOk c
        (storageRow c (jsOr (objGet data "id") (.str pathId)) data) = true
    · rw [handlePut_eq_upsert st c collStr pathId data hc hnn]
      dsimp only
      rw [handlePut_eq_upsert _ c collStr pathId data hc hnn]
      rw [get_set_same, upsertTable_idem, set_set_same]
    · rw [handlePut_eq_err st c collStr pathId data hc hnn]
      dsimp only
      exact handlePut_eq_err st c collStr pathId data hc hnn

/-- Claim C8: a PUT on the locations collection with a fresh id creates
the record, and a subsequent GET of that id returns the wire record with
the absent optional abbreviation mapped to null. -/
theorem c8_upsert_creates_missing (st : DBState)
    (h : ∀ r ∈ st.locations, rowKey r ≠ JsVal.str "LOC099") :
    handlePut st "locations" "LOC099" [("name", JsVal.str "Annex")]
      = (st.set .locations (st.locations ++
          [[("id", JsVal.str "LOC099"), ("name", JsVal.str "Annex"),
            ("abbreviation", JsVal.null)]]),
         ⟨200, JsVal.obj (fieldsOf
           [("id", JsVal.str "LOC099"), ("name", JsVal.str "Annex"),
            ("abbreviation", JsVal.null)])⟩) ∧
    handleGetOne (handlePut st "locations" "LOC099" [("name", JsVal.str "Annex")]).1
        "locations" "LOC099"
      = ⟨200, JsVal.obj (fieldsOf
          [("id", JsVal.str "LOC099"), ("name", JsVal.str "Annex"),
           ("abbreviation", JsVal.null)])⟩ := by
  have hc : collOfString "locations" = some Coll.locations := rfl
  have hrow : storageRow Coll.locations
      (jsOr (objGet [("name", JsVal.str "Annex")] "id") (JsVal.str "LOC099"))
      [("name", JsVal.str "Annex")]
      = [("id", JsVal.str "LOC099"), ("name", JsVal.str "Annex"),
         ("abbreviation", JsVal.null)] := rfl
  have hnn : rowNotNullOk Coll.locations (storageRow Coll.locations
      (jsOr (objGet [("name", JsVal.str "Annex")] "id") (JsVal.str "LOC099"))
      [("name", JsVal.str "Annex")]) = true := rfl
  have hfind : ∀ r ∈ st.locations, ¬((rowKey r == JsVal.str "LOC099") = true) := by
    intro r hr
    simpa using h r hr
  have hany : ¬((st.get Coll.locations).any
      (fun r => rowKey r == rowKey
        [("id", JsVal.str "LOC099"), ("name", JsVal.str "Annex"),
         ("abbreviation", JsVal.null)]) = true) := by
    rw [show (st.get Coll.locations) = st.locations from rfl]
    simp only [List.any_eq_true, not_exists, not_and]
    intro r hr
    exact hfind r hr
  have hmain := handlePut_eq_upsert st Coll.locations "locations" "LOC099"
    [("name", JsVal.str "Annex")] hc hnn
  rw [hrow] at hmain
  rw [upsertTable, if_neg hany] at hmain
  constructor
  · exact hmain
  · rw [hmain]
    dsimp only
    simp only [handleGetOne, hc]
    rw [get_set_same]
    rw [show (st.get Coll.locations) = st.locations from rfl]
    rw [find?_append_right _ st.locations _ hfind]
    rfl

/-- Witness for C8: on the empty store, the PUT creates location LOC099
and the GET returns it with a null abbreviation. -/
theorem c8_upsert_creates_missing_witness :
    handlePut emptyState "locations" "LOC099" [("name", JsVal.str "Annex")]
      = (emptyState.set .locations (emptyState.locations ++
          [[("id", JsVal.str "LOC099"), ("name", JsVal.str "Annex"),
            ("abbreviation", JsVal.null)]]),
         ⟨200, JsVal.obj (fieldsOf
           [("id", JsVal.str "LOC099"), ("name", JsVal.str "Annex"),
            ("abbreviation", JsVal.null)])⟩) ∧
    handleGetOne (handlePut emptyState "locations" "LOC099" [("name", JsVal.str "Annex")]).1
        "locations" "LOC099"
      = ⟨200, JsVal.obj (fieldsOf
          [("id", JsVal.str "LOC099"), ("name", JsVal.str "Annex"),
           ("abbreviation", JsVal.null)])⟩ :=
  c8_upsert_creates_missing emptyState (by simp [emptyState])

/-- Claim C9: in the PostgreSQL PUT handler, a non-empty body id that
differs from the path id takes precedence: the upsert is keyed by the
body id, the row stored under the body id is the one built from the body,
and the rows stored under the path id are left untouched. -/
theorem c9_body_id_precedence (st : DBState) (c : Coll) (collStr pathId bid : String)
    (data : Obj) (hc : collOfString collStr = some c)
    (hid : objGet data "id" = JsVal.str bid) (hbid : bid ≠ "") (hne : bid ≠ pathId)
    (hnn : rowNotNullOk c (storageRow c (JsVal.str bid) data) = true) :
    (handlePut st collStr pathId data).1.get c
        = upsertTable (st.get c) (storageRow c (JsVal.str bid) data) ∧
    ((handlePut st collStr pathId data).1.get c).find?
        (fun r => rowKey r == JsVal.str bid) = some (storageRow c (JsVal.str bid) data) ∧
    ((handlePut st collStr pathId data).1.get c).filter
        (fun r => rowKey r == JsVal.str pathId)
      = (st.get c).filter (fun r => rowKey r == JsVal.str pathId) := by
  have hjs : jsOr (objGet data "id") (JsVal.str pathId) = JsVal.str bid := by
    rw [hid]
    exact jsOr_str bid _ hbid
  have hnn2 : rowNotNullOk c
      (storageRow c (jsOr (objGet data "id") (.str pathId)) data) = true := by
    rw [hjs]
    exact hnn
  have hmain := handlePut_eq_upsert st c collStr pathId data hc hnn2
  rw [hjs] at hmain
  refine ⟨?_, ?_, ?_⟩
  · rw [hmain]
    dsimp only
    rw [get_set_same]
  · rw [hmain]
    dsimp only
    rw [get_set_same]
    have hf := find?_upsertTable_self (st.get c) (storageRow c (.str bid) data)
    rw [rowKey_storageRow] at hf
    exact hf
  · rw [hmain]
    dsimp only
    rw [get_set_same]
    apply filter_upsertTable_other
    rw [rowKey_storageRow]
    simp [hne]

/-- Witness for C9: with a location stored under id A, a PUT to path id A
whose body carries id B upserts under B and leaves the row under A
unchanged. -/
theorem c9_body_id_precedence_witness :
    (handlePut ⟨[], [], [[("id", JsVal.str "A"), ("name", JsVal.str "Old"),
        ("abbreviation", JsVal.null)]], [], []⟩ "locations" "A"
        [("id", JsVal.str "B"), ("name", JsVal.str "X")]).1.get .locations
        = upsertTable ((⟨[], [], [[("id", JsVal.str "A"), ("name", JsVal.str "Old"),
            ("abbreviation", JsVal.null)]], [], []⟩ : DBState).get .locations)
            (storageRow .locations (JsVal.str "B")
              [("id", JsVal.str "B"), ("name", JsVal.str "X")]) ∧
    ((handlePut ⟨[], [], [[("id", JsVal.str "A"), ("name", JsVal.str "Old"),
        ("abbreviation", JsVal.null)]], [], []⟩ "locations" "A"
        [("id", JsVal.str "B"), ("name", JsVal.str "X")]).1.get .locations).find?
        (fun r => rowKey r == JsVal.str "B")
        = some (storageRow .locations (JsVal.str "B")
            [("id", JsVal.str "B"), ("name", JsVal.str "X")]) ∧
    ((handlePut ⟨[], [], [[("id", JsVal.str "A"), ("name", JsVal.str "Old"),
        ("abbreviation", JsVal.null)]], [], []⟩ "locations" "A"
        [("id", JsVal.str "B"), ("name", JsVal.str "X")]).1.get .locations).filter
        (fun r => rowKey r == JsVal.str "A")
      = ((⟨[], [], [[("id", JsVal.str "A"), ("name", JsVal.str "Old"),
          ("abbreviation", JsVal.null)]], [], []⟩ : DBState).get .locations).filter
          (fun r => rowKey r == JsVal.str "A") :=
  c9_body_id_precedence
    ⟨[], [], [[("id", JsVal.str "A"), ("name", JsVal.str "Old"),
      ("abbreviation", JsVal.null)]], [], []⟩
    .locations "locations" "A" "B" [("id", JsVal.str "B"), ("name", JsVal.str "X")]
    rfl rfl (by decide) (by decide) (by decide)

/-! ## The field-mapper round trip -/

/-- Claim C5: for each of the five collections, converting a
field-complete wire record to its storage row the way the create and
upsert handlers build their values array, and mapping the row back with
dbToApi, returns the original wire record. -/
theorem c5_field_mapper_roundtrip :
    (∀ (i n p : String) (img : Option String) (a ad : Bool) (loc dep : Option String)
        (it : Bool) (ta : Option String),
      dbToApi (storageRow .employees (objGet (employeeWire i n p img a ad loc dep it ta) "id")
          (employeeWire i n p img a ad loc dep it ta)) "employees"
        = JsVal.obj (fieldsOf (employeeWire i n p img a ad loc dep it ta))) ∧
    (∀ (i emp : String) (loc : Option String) (cin : String) (cout : Option String)
        (brs : JsItems),
      dbToApi (storageRow .timerecords (objGet (timerecordWire i emp loc cin cout brs) "id")
          (timerecordWire i emp loc cin cout brs)) "timerecords"
        = JsVal.obj (fieldsOf (timerecordWire i emp loc cin cout brs))) ∧
    (∀ (i n : String) (ab : Option String),
      dbToApi (storageRow .locations (objGet (locationWire i n ab) "id")
          (locationWire i n ab)) "locations"
        = JsVal.obj (fieldsOf (locationWire i n ab))) ∧
    (∀ i n : String,
      dbToApi (storageRow .departments (objGet (departmentWire i n) "id")
          (departmentWire i n)) "departments"
        = JsVal.obj (fieldsOf (departmentWire i n))) ∧
    (∀ (i : String) (logo : Option String) (wsd : Option Int) (rdb : Option String)
        (ess : Bool) (kloc cf : Option String) (apu : Bool) (ts ttc tcf tad tal : Option Int),
      dbToApi (storageRow .settings
          (objGet (settingsWire i logo wsd rdb ess kloc cf apu ts ttc tcf tad tal) "id")
          (settingsWire i logo wsd rdb ess kloc cf apu ts ttc tcf tad tal)) "settings"
        = JsVal.obj (fieldsOf (settingsWire i logo wsd rdb ess kloc cf apu ts ttc tcf tad tal))) := by
  refine ⟨?_, ?_, ?_, ?_, ?_⟩
  · intro i n p img a ad loc dep it ta
    cases a <;> cases ad <;> cases it <;> rfl
  · intro i emp loc cin cout brs
    rfl
  · intro i n ab
    rfl
  · intro i n
    rfl
  · intro i logo wsd rdb ess kloc cf apu ts ttc tcf tad tal
    rfl

/-! ## The sync pull endpoint -/

theorem syncTableGet_coll (db : SyncDB) (s : String) (t : List Obj) :
    syncTableGet db s = some t ↔ rxDbGet db s = RxProp.coll t := by
  cases hr : rxDbGet db s <;> simp [syncTableGet, hr]

/-- Claim C6: the pull endpoint is a full-snapshot pull: for every
registered collection and every client checkpoint (including null), the
documents field of the response is the complete list of documents of the
collection, independent of the checkpoint, and the response status is
200. -/
theorem c6_pull_full_snapshot (db : SyncDB) (collStr : String) (t : List Obj)
    (h : syncTableGet db collStr = some t) (checkpoint : JsVal) (now : Int) :
    (handlePull db collStr checkpoint now).status = 200 ∧
    jsGet (handlePull db collStr checkpoint now).body "documents"
      = JsVal.arr (itemsOf (t.map (fun r => JsVal.obj (fieldsOf r)))) := by
  have hr : rxDbGet db collStr = RxProp.coll t := (syncTableGet_coll db collStr t).mp h
  constructor
  · simp only [handlePull, hr]
  · simp only [handlePull, hr]
    rfl

/-- Witness for C6: pulling the employees collection of a one-document
sync database with a null checkpoint returns that document. -/
theorem c6_pull_full_snapshot_witness :
    (handlePull ⟨[[("id", JsVal.str "E1")]], [], [], [], [], rxDatabaseMembers⟩
        "employees" JsVal.null 7).status = 200 ∧
    jsGet (handlePull ⟨[[("id", JsVal.str "E1")]], [], [], [], [], rxDatabaseMembers⟩
        "employees" JsVal.null 7).body "documents"
      = JsVal.arr (itemsOf ([[("id", JsVal.str "E1")]].map (fun r => JsVal.obj (fieldsOf r)))) :=
  c6_pull_full_snapshot ⟨[[("id", JsVal.str "E1")]], [], [], [], [], rxDatabaseMembers⟩
    "employees" [[("id", JsVal.str "E1")]] rfl JsVal.null 7

/-! ## Unknown collection names -/

/-- Counterexample to claim C2 as frozen, in two parts.  First, the name
time_records is not in the claimed set of five collection names, yet the
sync pull route answers it with a 200 full snapshot, not a 404, because
the sync variant registers the collection under the name time_records.
Second, the name name is not in the claimed set either, yet the sync
pull route and the RxDB REST list route answer it with a 500: name is a
truthy member of the RxDatabase object, so it passes the db[collection]
guard and the collection call on it throws. -/
theorem c2_unknown_collection_claim_false :
    ("time_records" ∉ validCollections ∧
      handlePull emptySyncDB "time_records" JsVal.null 0
        = ⟨200, JsVal.obj (fieldsOf
            [("documents", JsVal.arr .nil), ("checkpoint", JsVal.null)])⟩ ∧
      (handlePull emptySyncDB "time_records" JsVal.null 0).status ≠ 404) ∧
    ("name" ∉ validCollections ∧
      handlePull emptySyncDB "name" JsVal.null 0 = rxTypeError500 ∧
      rxHandleGetAll emptyRxRestDB "name" = rxTypeError500 ∧
      (handlePull emptySyncDB "name" JsVal.null 0).status = 500) :=
  ⟨⟨by decide, rfl, by decide⟩, ⟨by decide, by decide, by decide, by decide⟩⟩

/-- Claim C2 (amended): for every collection name outside the set
(employees, timerecords, locations, departments, settings): the
PostgreSQL REST routes (list, get, create, upsert, delete) always answer
404 Collection not found, never a 500, and leave the store unchanged;
the RxDB-backed routes (the RxDB REST variant and sync pull and push)
answer 404 provided the name is additionally neither time_records, the
name the sync variant registers for time records, nor a truthy member of
the RxDatabase object: time_records is served with a 200 snapshot by
sync pull, and truthy members such as name or addCollections pass the
db[collection] guard and surface as a 500. -/
theorem c2_unknown_collection_not_found (name : String)
    (h1 : name ∉ validCollections) (h2 : name ≠ "time_records") :
    (∀ st : DBState, handleGetAll st name = respCollNotFound) ∧
    (∀ (st : DBState) (pid : String), handleGetOne st name pid = respCollNotFound) ∧
    (∀ (st : DBState) (data : Obj), handlePost st name data = (st, respCollNotFound)) ∧
    (∀ (st : DBState) (pid : String) (data : Obj),
      handlePut st name pid data = (st, respCollNotFound)) ∧
    (∀ (st : DBState) (pid : String), handleDelete st name pid = (st, respCollNotFound)) ∧
    (∀ db : RxRestDB, name ∉ db.members → rxHandleGetAll db name = respCollNotFound) ∧
    (∀ (db : RxRestDB) (pid : String), name ∉ db.members →
      rxHandleGetOne db name pid = respCollNotFound) ∧
    (∀ (db : RxRestDB) (body : JsVal), name ∉ db.members →
      rxHandlePost db name body = (db, respCollNotFound)) ∧
    (∀ (db : RxRestDB) (pid : String) (body : JsVal), name ∉ db.members →
      rxHandlePut db name pid body = (db, respCollNotFound)) ∧
    (∀ (db : RxRestDB) (pid : String), name ∉ db.members →
      rxHandleDelete db name pid = (db, respCollNotFound)) ∧
    (∀ (db : SyncDB) (checkpoint : JsVal) (now : Int), name ∉ db.members →
      handlePull db name checkpoint now = respCollNotFound) ∧
    (∀ (db : SyncDB) (changes : List JsVal), name ∉ db.members →
      handlePush db name changes = (db, respCollNotFound)) := by
  have h1e : ¬(name = "employees") ∧ ¬(name = "timerecords") ∧ ¬(name = "locations") ∧
      ¬(name = "departments") ∧ ¬(name = "settings") := by
    simpa [validCollections] using h1
  obtain ⟨he, ht, hl, hd, hs⟩ := h1e
  have hcoll : collOfString name = none := by
    simp [collOfString, he, ht, hl, hd, hs]
  have hrx : ∀ db : RxRestDB, name ∉ db.members → rxRestGet db name = RxProp.absent := by
    intro db hm
    simp [rxRestGet, he, ht, hl, hd, hs, hm]
  have hsync : ∀ db : SyncDB, name ∉ db.members → rxDbGet db name = RxProp.absent := by
    intro db hm
    simp [rxDbGet, he, h2, hl, hd, hs, hm]
  refine ⟨?_, ?_, ?_, ?_, ?_, ?_, ?_, ?_, ?_, ?_, ?_, ?_⟩
  · intro st
    simp [handleGetAll, hcoll]
  · intro st pid
    simp [handleGetOne, hcoll]
  · intro st data
    simp [handlePost, hcoll]
  · intro st pid data
    simp [handlePut, hcoll]
  · intro st pid
    simp [handleDelete, hcoll]
  · intro db hm
    simp [rxHandleGetAll, hrx db hm]
  · intro db pid hm
    simp [rxHandleGetOne, hrx db hm]
  · intro db body hm
    simp [rxHandlePost, hrx db hm]
  · intro db pid body hm
    simp [rxHandlePut, hrx db hm]
  · intro db pid hm
    simp [rxHandleDelete, hrx db hm]
  · intro db checkpoint now hm
    simp [handlePull, hsync db hm]
  · intro db changes hm
    simp [handlePush, hsync db hm]

/-- Witness for C2 (amended): the unknown name widgets, which is neither
a registered collection nor a database member, gets a 404 from the
PostgreSQL list route, the RxDB REST list route, the sync pull route and
the sync push route. -/
theorem c2_unknown_collection_not_found_witness :
    handleGetAll emptyState "widgets" = respCollNotFound ∧
    rxHandleGetAll emptyRxRestDB "widgets" = respCollNotFound ∧
    handlePull emptySyncDB "widgets" JsVal.null 0 = respCollNotFound ∧
    handlePush emptySyncDB "widgets" [] = (emptySyncDB, respCollNotFound) :=
  ⟨(c2_unknown_collection_not_found "widgets" (by decide) (by decide)).1 emptyState,
   (c2_unknown_collection_not_found "widgets" (by decide) (by decide)).2.2.2.2.2.1
      emptyRxRestDB (by decide),
   (c2_unknown_collection_not_found "widgets" (by decide)
      (by decide)).2.2.2.2.2.2.2.2.2.2.1 emptySyncDB JsVal.null 0 (by decide),
   (c2_unknown_collection_not_found "widgets" (by decide)
      (by decide)).2.2.2.2.2.2.2.2.2.2.2 emptySyncDB [] (by decide)⟩

/-! ## The id-uniqueness invariant -/

theorem tableUnique_append (t : List Obj) (row : Obj) (hu : tableUnique t)
    (h : ¬(t.any (fun r => rowKey r == rowKey row) = true)) :
    tableUnique (t ++ [row]) := by
  have h2 : ∀ r ∈ t, ¬((rowKey r == rowKey row) = true) :=
    List.any_eq_false.mp (by simpa using h)
  unfold tableUnique at *
  rw [List.map_append, List.nodup_append]
  refine ⟨hu, List.nodup_singleton _, ?_⟩
  intro a ha hb
  simp only [List.map_cons, List.map_nil, List.mem_singleton] at hb
  subst hb
  obtain ⟨r, hr, hkey⟩ := List.mem_map.mp ha
  exact h2 r hr (by simp [hkey])

theorem tableUnique_upsert (t : List Obj) (row : Obj) (hu : tableUnique t) :
    tableUnique (upsertTable t row) := by
  unfold upsertTable
  by_cases h : t.any (fun r => rowKey r == rowKey row) = true
  · rw [if_pos h]
    unfold tableUnique at *
    have hkeys : (t.map (fun r => if rowKey r == rowKey row then row else r)).map rowKey
        = t.map rowKey := by
      rw [List.map_map]
      apply List.map_congr_left
      intro r _
      by_cases hk : (rowKey r == rowKey row) = true
      · have : rowKey r = rowKey row := by simpa using hk
        simp [Function.comp, hk, this]
      · simp [Function.comp, hk]
    rw [hkeys]
    exact hu
  · rw [if_neg h]
    exact tableUnique_append t row hu h

theorem tableUnique_filter (t : List Obj) (q : Obj → Bool) (hu : tableUnique t) :
    tableUnique (t.filter q) := by
  unfold tableUnique at *
  exact List.Nodup.sublist ((List.filter_sublist t).map rowKey) hu

theorem stateUnique_get (st : DBState) (hs : stateUnique st) (c : Coll) :
    tableUnique (st.get c) := by
  obtain ⟨h1, h2, h3, h4, h5⟩ := hs
  cases c
  · exact h1
  · exact h2
  · exact h3
  · exact h4
  · exact h5

theorem stateUnique_set (st : DBState) (c : Coll) (t : List Obj)
    (hs : stateUnique st) (ht : tableUnique t) : stateUnique (st.set c t) := by
  obtain ⟨h1, h2, h3, h4, h5⟩ := hs
  cases c
  · exact ⟨ht, h2, h3, h4, h5⟩
  · exact ⟨h1, ht, h3, h4, h5⟩
  · exact ⟨h1, h2, ht, h4, h5⟩
  · exact ⟨h1, h2, h3, ht, h5⟩
  · exact ⟨h1, h2, h3, h4, ht⟩

theorem applyOp_preserves (st : DBState) (op : StoreOp) (hs : stateUnique st) :
    stateUnique (applyOp st op) := by
  cases op with
  | create collStr data =>
    show stateUnique (handlePost st collStr data).1
    cases hc : collOfString collStr with
    | none => simpa [handlePost, hc] using hs
    | some c =>
      simp only [handlePost, hc]
      by_cases hnn : rowNotNullOk c (storageRow c (objGet data "id") data) = true
      · rw [if_pos hnn]
        by_cases hdup : (st.get c).any
            (fun r => rowKey r == rowKey (storageRow c (objGet data "id") data)) = true
        · rw [if_pos hdup]
          exact hs
        · rw [if_neg hdup]
          exact stateUnique_set st c _ hs
            (tableUnique_append _ _ (stateUnique_get st hs c) hdup)
      · rw [if_neg hnn]
        exact hs
  | upsert collStr pathId data =>
    show stateUnique (handlePut st collStr pathId data).1
    cases hc : collOfString collStr with
    | none => simpa [handlePut, hc] using hs
    | some c =>
      by_cases hnn : rowNotNullOk c
          (storageRow c (jsOr (objGet data "id") (.str pathId)) data) = true
      · rw [handlePut_eq_upsert st c collStr pathId data hc hnn]
        exact stateUnique_set st c _ hs
          (tableUnique_upsert _ _ (stateUnique_get st hs c))
      · rw [handlePut_eq_err st c collStr pathId data hc hnn]
        exact hs
  | remove collStr pathId =>
    show stateUnique (handleDelete st collStr pathId).1
    cases hc : collOfString collStr with
    | none => simpa [handleDelete, hc] using hs
    | some c =>
      simp only [handleDelete, hc]
      by_cases hdel : (st.get c).any (fun r => rowKey r == JsVal.str pathId) = true
      · rw [if_pos hdel]
        exact stateUnique_set st c _ hs
          (tableUnique_filter _ _ (stateUnique_get st hs c))
      · rw [if_neg hdel]
        exact hs

/-- Claim C7: id uniqueness is an invariant of the store: starting from a
store in which every collection holds at most one row per id, any
sequence of create, upsert and delete operations leaves every collection
with at most one row per id; in particular a create on an existing id is
rejected by the primary-key constraint and never duplicates the id. -/
theorem c7_id_uniqueness_invariant (ops : List StoreOp) (st : DBState)
    (hs : stateUnique st) : stateUnique (applyOps st ops) := by
  induction ops generalizing st with
  | nil => exact hs
  | cons op ops ih => exact ih (applyOp st op) (applyOp_preserves st op hs)

/-- Witness for C7: a concrete operation sequence that creates an
employee, attempts a duplicate create of the same id, upserts it and
finally deletes it preserves uniqueness starting from the empty store. -/
theorem c7_id_uniqueness_invariant_witness :
    stateUnique emptyState ∧
    stateUnique (applyOps emptyState
      [.create "employees" [("id", JsVal.str "E1"), ("name", JsVal.str "A"),
          ("pin", JsVal.str "1")],
       .create "employees" [("id", JsVal.str "E1"), ("name", JsVal.str "B"),
          ("pin", JsVal.str "2")],
       .upsert "employees" "E1" [("name", JsVal.str "C"), ("pin", JsVal.str "3")],
       .remove "employees" "E1"]) :=
  ⟨by decide,
   c7_id_uniqueness_invariant
     [.create "employees" [("id", JsVal.str "E1"), ("name", JsVal.str "A"),
         ("pin", JsVal.str "1")],
      .create "employees" [("id", JsVal.str "E1"), ("name", JsVal.str "B"),
         ("pin", JsVal.str "2")],
      .upsert "employees" "E1" [("name", JsVal.str "C"), ("pin", JsVal.str "3")],
      .remove "employees" "E1"] emptyState (by decide)⟩
